import Mathlib

/-
Verification of the Amazon S3 storage driver
(`libcloud/storage/drivers/s3.py`): a shallow embedding of the
request-signing and response-mapping pipeline, followed by theorems about
its behaviour.

Conventions of the embedding:
* Python byte strings are Lean `String`s (the driver only handles ASCII
  protocol data); `str.lower()` / `str.strip()` are modelled by `pyLower` /
  `pyStrip` below, faithful to their ASCII behaviour.
* Python dicts are association lists with unique keys; `d[k] = v` is
  `dictSet` (overwrite-or-append), `d[k]` / `d.get` is `dictGet`,
  `d.has_key(k)` is `hasKey`.  Iteration order over a dict is modelled by
  the list order.
* HTTP statuses are `Int` (the code calls `int(self.status)`).
* `raise`-ing code returns `Except S3Error`.
* The wall clock (`time.time()`) is an explicit `now : Nat` argument.
-/

/-- Python `str.lower` on a single ASCII character: maps A-Z to a-z and
leaves every other byte unchanged. -/
def pyLowerChar (c : Char) : Char :=
  if 'A' ≤ c ∧ c ≤ 'Z' then Char.ofNat (c.toNat + 32) else c

/-- Python `str.lower` for byte strings (ASCII case mapping). -/
def pyLower (s : String) : String :=
  ⟨s.data.map pyLowerChar⟩

/-- Python whitespace for `str.strip`: space, tab, newline, carriage
return, vertical tab, form feed. -/
def pyIsSpace (c : Char) : Bool :=
  c = ' ' || c = '\t' || c = '\n' || c = '\r' || c = '\x0b' || c = '\x0c'

/-- Python `str.strip()`: drop leading and trailing whitespace. -/
def pyStrip (s : String) : String :=
  ⟨((s.data.dropWhile pyIsSpace).reverse.dropWhile pyIsSpace).reverse⟩

/-- Python dict lookup `d[k]` / `d.get(k)` on an association list. -/
def dictGet (m : List (String × String)) (k : String) : Option String :=
  match m with
  | [] => none
  | (k₁, v) :: t => if k₁ = k then some v else dictGet t k

/-- Python dict assignment `d[k] = v`: overwrite the existing entry for
`k`, or append a new one. -/
def dictSet (m : List (String × String)) (k v : String) : List (String × String) :=
  match m with
  | [] => [(k, v)]
  | (k₁, v₁) :: t => if k₁ = k then (k₁, v) :: t else (k₁, v₁) :: dictSet t k v

/-- Python `d.has_key(k)`. -/
def hasKey (m : List (String × String)) (k : String) : Bool :=
  (m.map Prod.fst).contains k

@[simp] theorem dictGet_nil (k : String) : dictGet [] k = none := rfl

@[simp] theorem dictGet_cons (k₁ v : String) (t : List (String × String)) (k : String) :
    dictGet ((k₁, v) :: t) k = if k₁ = k then some v else dictGet t k := rfl

theorem dictGet_dictSet_self (m : List (String × String)) (k v : String) :
    dictGet (dictSet m k v) k = some v := by
  induction m with
  | nil => simp [dictSet]
  | cons p t ih =>
    obtain ⟨k₁, v₁⟩ := p
    by_cases h : k₁ = k <;> simp [dictSet, h, ih]

theorem dictGet_dictSet_ne (m : List (String × String)) (k v k₂ : String) (h : k ≠ k₂) :
    dictGet (dictSet m k v) k₂ = dictGet m k₂ := by
  induction m with
  | nil => simp [dictSet, h]
  | cons p t ih =>
    obtain ⟨k₁, v₁⟩ := p
    by_cases h₁ : k₁ = k
    · subst h₁
      simp [dictSet, h]
    · simp [dictSet, h₁, ih]

theorem map_fst_dictSet (m : List (String × String)) (k v : String) :
    (dictSet m k v).map Prod.fst =
      if (m.map Prod.fst).contains k then m.map Prod.fst
      else m.map Prod.fst ++ [k] := by
  induction m with
  | nil => simp [dictSet]
  | cons p t ih =>
    obtain ⟨k₁, v₁⟩ := p
    by_cases h : k₁ = k
    · subst h
      simp [dictSet]
    · have hne : k ≠ k₁ := fun e => h e.symm
      have hc : (k₁ :: List.map Prod.fst t).contains k = (List.map Prod.fst t).contains k := by
        simp [hne]
      simp only [dictSet, if_neg h, List.map_cons, ih, hc]
      split <;> rfl

theorem hasKey_iff_dictGet (m : List (String × String)) (k : String) :
    hasKey m k = true ↔ ∃ v, dictGet m k = some v := by
  induction m with
  | nil => simp [hasKey]
  | cons p t ih =>
    obtain ⟨k₁, v₁⟩ := p
    by_cases h : k₁ = k
    · subst h
      simp [hasKey]
    · have hne : k ≠ k₁ := fun e => h e.symm
      simp [hasKey, List.contains_cons, hne, h] at ih ⊢
      exact ih

/-
Byte-level collaborators: `hashlib.sha1`, `hmac`, `base64.b64encode` and
UTF-8 encoding are Python standard-library collaborators of the driver.
They are modelled here by their standard definitions (FIPS 180: SHA-1,
RFC 2104: HMAC, RFC 4648: base64), over `List Nat` byte strings.
-/

/-- UTF-8 encoding of a single code point as a list of bytes. -/
def utf8Bytes (c : Nat) : List Nat :=
  if c < 128 then [c]
  else if c < 2048 then [192 + c / 64, 128 + c % 64]
  else if c < 65536 then [224 + c / 4096, 128 + c / 64 % 64, 128 + c % 64]
  else [240 + c / 262144, 128 + c / 4096 % 64, 128 + c / 64 % 64, 128 + c % 64]

/-- Bytes of a string (UTF-8; the driver only ever signs ASCII data). -/
def strToBytes (s : String) : List Nat :=
  (s.data.map (fun c => utf8Bytes c.toNat)).flatten

/-- Truncation to a 32-bit word. -/
def w32 (n : Nat) : Nat := n % 4294967296

/-- Left rotation of a 32-bit word by `s` bits. -/
def rotl (n s : Nat) : Nat :=
  w32 (w32 n * 2 ^ s) + w32 n / 2 ^ (32 - s)

/-- Iterate a function `n` times. -/
def iterN {α : Type} (f : α → α) : Nat → α → α
  | 0, a => a
  | n + 1, a => iterN f n (f a)

/-- SHA-1 message padding: append `0x80`, zeros, and the 64-bit big-endian
bit length, reaching a multiple of 64 bytes. -/
def sha1Pad (msg : List Nat) : List Nat :=
  let l := msg.length
  let zeros := (119 - l % 64) % 64
  let bitLen := 8 * l
  msg ++ [128] ++ List.replicate zeros 0 ++
    [bitLen / 2 ^ 56 % 256, bitLen / 2 ^ 48 % 256, bitLen / 2 ^ 40 % 256,
     bitLen / 2 ^ 32 % 256, bitLen / 2 ^ 24 % 256, bitLen / 2 ^ 16 % 256,
     bitLen / 2 ^ 8 % 256, bitLen % 256]

/-- Split a byte list into 64-byte blocks. -/
def chunks64 : List Nat → List (List Nat)
  | [] => []
  | x :: xs => ((x :: xs).take 64) :: chunks64 (xs.drop 63)
termination_by l => l.length
decreasing_by
  simp
  omega

/-- Big-endian 32-bit words of a block of bytes. -/
def bytesToWords : List Nat → List Nat
  | b0 :: b1 :: b2 :: b3 :: rest =>
      (b0 * 16777216 + b1 * 65536 + b2 * 256 + b3) :: bytesToWords rest
  | _ => []

/-- Big-endian bytes of a list of 32-bit words. -/
def wordsToBytes (ws : List Nat) : List Nat :=
  (ws.map (fun x => [x / 16777216 % 256, x / 65536 % 256, x / 256 % 256, x % 256])).flatten

/-- One step of the SHA-1 message-schedule extension. -/
def sha1ExtStep (w : List Nat) : List Nat :=
  let n := w.length
  w ++ [rotl ((w.getD (n - 3) 0) ^^^ (w.getD (n - 8) 0) ^^^
              (w.getD (n - 14) 0) ^^^ (w.getD (n - 16) 0)) 1]

/-- The 80-word SHA-1 message schedule of a 16-word block. -/
def sha1Schedule (block : List Nat) : List Nat :=
  iterN sha1ExtStep 64 block

/-- One of the 80 SHA-1 compression rounds. -/
def sha1Round (st : Nat × Nat × Nat × Nat × Nat) (iw : Nat × Nat) :
    Nat × Nat × Nat × Nat × Nat :=
  let (a, b, c, d, e) := st
  let (i, wi) := iw
  let f :=
    if i < 20 then (b &&& c) ||| ((4294967295 ^^^ b) &&& d)
    else if i < 40 then b ^^^ c ^^^ d
    else if i < 60 then (b &&& c) ||| (b &&& d) ||| (c &&& d)
    else b ^^^ c ^^^ d
  let k :=
    if i < 20 then 1518500249
    else if i < 40 then 1859775393
    else if i < 60 then 2400959708
    else 3395469782
  let temp := w32 (rotl a 5 + f + e + k + wi)
  (temp, a, rotl b 30, c, d)

/-- SHA-1 compression of one 64-byte block into the running state. -/
def sha1Compress (h : List Nat) (block : List Nat) : List Nat :=
  let w := sha1Schedule (bytesToWords block)
  let h0 := h.getD 0 0
  let h1 := h.getD 1 0
  let h2 := h.getD 2 0
  let h3 := h.getD 3 0
  let h4 := h.getD 4 0
  let (a, b, c, d, e) := w.enum.foldl sha1Round (h0, h1, h2, h3, h4)
  [w32 (h0 + a), w32 (h1 + b), w32 (h2 + c), w32 (h3 + d), w32 (h4 + e)]

/-- SHA-1 of a byte string (20-byte digest). -/
def sha1Bytes (msg : List Nat) : List Nat :=
  wordsToBytes ((chunks64 (sha1Pad msg)).foldl sha1Compress
    [1732584193, 4023233417, 2562383102, 271733878, 3285377520])

/-- HMAC-SHA1 (RFC 2104), modelling Python `hmac.new(key, msg, sha1)`. -/
def hmacSha1 (key msg : List Nat) : List Nat :=
  let k1 := if 64 < key.length then sha1Bytes key else key
  let k0 := k1 ++ List.replicate (64 - k1.length) 0
  let ipad := k0.map (fun b => b ^^^ 54)
  let opad := k0.map (fun b => b ^^^ 92)
  sha1Bytes (opad ++ sha1Bytes (ipad ++ msg))

/-- Alphabet of standard base64. -/
def b64Chars : List Char :=
  "ABCDEFGHIJKLMNOPQRSTUVWXYZabcdefghijklmnopqrstuvwxyz0123456789+/".data

/-- Base64 character for a 6-bit value. -/
def b64Char (n : Nat) : Char := b64Chars.getD n 'A'

/-- Base64 encoding (RFC 4648), modelling Python `base64.b64encode`. -/
def base64Encode : List Nat → String
  | [] => ""
  | [a] =>
      String.mk [b64Char (a / 4), b64Char (a % 4 * 16), '=', '=']
  | [a, b] =>
      String.mk [b64Char (a / 4), b64Char (a % 4 * 16 + b / 16),
                 b64Char (b % 16 * 4), '=']
  | a :: b :: c :: rest =>
      String.mk [b64Char (a / 4), b64Char (a % 4 * 16 + b / 16),
                 b64Char (b % 16 * 4 + c / 64), b64Char (c % 64)] ++
      base64Encode rest

/-
Constants of `s3.py` (module level).
-/

/-- How long before the token expires: `EXPIRATION_SECONDS = 15 * 60`. -/
def EXPIRATION_SECONDS : Nat := 15 * 60

def S3_US_STANDARD_HOST : String := "s3.amazonaws.com"

def S3_US_WEST_HOST : String := "s3-us-west-1.amazonaws.com"

def S3_EU_WEST_HOST : String := "s3-eu-west-1.amazonaws.com"

def S3_AP_SOUTHEAST_HOST : String := "s3-ap-southeast-1.amazonaws.com"

def S3_AP_NORTHEAST_HOST : String := "s3-ap-northeast-1.amazonaws.com"

def API_VERSION : String := "2006-03-01"

/-- Module constant: the API namespace URI, interpolating `API_VERSION`. -/
def NAMESPACE : String := "http://s3.amazonaws.com/doc/" ++ API_VERSION ++ "/"

/-
Modelled from the spec: the `httplib` standard-library status-code
constants referenced by the driver.
-/
namespace httplib

def OK : Int := 200

def NO_CONTENT : Int := 204

def MOVED_PERMANENTLY : Int := 301

def FORBIDDEN : Int := 403

def NOT_FOUND : Int := 404

def CONFLICT : Int := 409

end httplib

/-- Modelled from the spec: the error kinds of §7, raised by the driver.
`InvalidCredsError` and `LibcloudError` come from `libcloud.common.types`,
the two container errors from `libcloud.storage.types`; those modules are
outside the source of this file, so only the payloads the spec names are
modelled: the message/value, and for the container errors the
`container_name`.  The `driver` back-reference argument of the Python
constructors is dropped, as no claim concerns it. -/
inductive S3Error where
  | invalidCreds (body : String)
  | libcloudError (message : String)
  | containerIsNotEmpty (value : String) (container_name : Option String)
  | containerDoesNotExist (value : Option String) (container_name : Option String)
  deriving DecidableEq

/-- `S3Response.valid_response_codes = [httplib.NOT_FOUND, httplib.CONFLICT]`. -/
def valid_response_codes : List Int := [httplib.NOT_FOUND, httplib.CONFLICT]

/-- `S3Response.success`: `i >= 200 and i <= 299 or i in self.valid_response_codes`
with `i = int(self.status)`. -/
def S3Response.success (status : Int) : Bool :=
  (decide (200 ≤ status) && decide (status ≤ 299)) || valid_response_codes.contains status

/-- `S3Response.parse_error`: 403 raises `InvalidCredsError(self.body)`,
301 raises the wrong-region `LibcloudError`, anything else the catch-all
`LibcloudError` whose message interpolates the status code (`%d`). -/
def S3Response.parse_error (status : Int) (body : String) : S3Error :=
  if status = 403 then
    .invalidCreds body
  else if status = 301 then
    .libcloudError ("This bucket is located in a different " ++
                    "region. Please use the correct driver.")
  else
    .libcloudError ("Unknown error. Status code: " ++ toString status)

/-
The Canonical Signer: `S3Connection._get_aws_auth_param`.
-/

/-- Lexicographic byte order on character lists, modelling Python string
comparison (used by `list.sort()` on the dict keys). -/
def charListLt : List Char → List Char → Bool
  | [], [] => false
  | [], _ :: _ => true
  | _ :: _, [] => false
  | c :: cs, d :: ds =>
      if c.toNat < d.toNat then true
      else if d.toNat < c.toNat then false
      else charListLt cs ds

/-- Python `<` on byte strings. -/
def strLt (a b : String) : Bool := charListLt a.data b.data

/-- Insert into a sorted list of strings. -/
def insSorted (x : String) : List String → List String
  | [] => [x]
  | y :: ys => if strLt x y then x :: y :: ys else y :: insSorted x ys

/-- Python `keys.sort()`: insertion sort in byte-lexicographic order. -/
def sortStrings : List String → List String
  | [] => []
  | x :: xs => insSorted x (sortStrings xs)

/-- Python `'\n'.join(buf)`. -/
def joinNl : List String → String
  | [] => ""
  | [x] => x
  | x :: y :: ys => x ++ "\n" ++ joinNl (y :: ys)

/-- The `special_header_keys` list: content-md5, content-type, date. -/
def special_header_keys : List String := ["content-md5", "content-type", "date"]

/-- One iteration of the header loop of `_get_aws_auth_param`: for a
header whose lowercased key is special, store the lowercased, stripped
value under the lowercased key. -/
def specialStep (acc : List (String × String)) (p : String × String) :
    List (String × String) :=
  if special_header_keys.contains (pyLower p.1) then
    dictSet acc (pyLower p.1) (pyStrip (pyLower p.2))
  else acc

/-- The header loop of `_get_aws_auth_param`, started from the
`special_header_values` dict holding one entry: an empty value under the
date key.  The source first takes a `copy.deepcopy` of the headers; a
deep copy is the identity in this pure embedding. -/
def collectSpecial (headers : List (String × String)) : List (String × String) :=
  headers.foldl specialStep [("date", "")]

/-- One `has_key` default check of `_get_aws_auth_param`: a missing key
becomes the empty string. -/
def applyDefault (svs : List (String × String)) (k : String) : List (String × String) :=
  if hasKey svs k then svs else dictSet svs k ""

/-- The two `has_key` default checks of `_get_aws_auth_param`: missing
`content-md5` or `content-type` become the empty string. -/
def withDefaults (svs : List (String × String)) : List (String × String) :=
  applyDefault (applyDefault svs "content-md5") "content-type"

/-- The `if expires:` overwrite of the date slot with `str(expires)`;
the expiry is already a string here, so truthiness is non-emptiness. -/
def applyExpires (svs : List (String × String)) (expires : String) :
    List (String × String) :=
  if expires ≠ "" then dictSet svs "date" expires else svs

/-- The `string_to_sign` built by `_get_aws_auth_param`: the method and
the values of the sorted special-header dict, newline-joined, then a
newline and the path. -/
def string_to_sign (method : String) (headers : List (String × String))
    (expires : String) (path : String) : String :=
  let svs := applyExpires (withDefaults (collectSpecial headers)) expires
  let keys_sorted := sortStrings (svs.map Prod.fst)
  let buf := [method] ++ keys_sorted.map (fun k => (dictGet svs k).getD "")
  joinNl buf ++ "\n" ++ path

/-- `S3Connection._get_aws_auth_param`: base64 of the HMAC-SHA1 of the
string-to-sign under the secret key.  The `params` argument is accepted
and unused, exactly as in the source. -/
def _get_aws_auth_param (method : String) (headers : List (String × String))
    (params : List (String × String)) (expires : String)
    (secret_key : String) (path : String) : String :=
  let _ := params
  base64Encode (hmacSha1 (strToBytes secret_key) (strToBytes
    (string_to_sign method headers expires path)))

/-
The Authenticated Request Builder: `S3Connection.add_default_params`.
-/

/-- `S3Connection`: user_id and key come from `ConnectionUserAndKey`;
`method` and `action` are the per-request state set by the base
`Connection` before calling `add_default_params`; `default_headers` is
modelled from the spec: the default headers declared for the request,
which the base class `add_default_headers` merges into the empty dict
passed at the call site. -/
structure S3Connection where
  host : String
  user_id : String
  key : String
  method : String
  action : String
  default_headers : List (String × String)

/-- Modelled from the spec: `add_default_headers` of the base
`Connection` class (outside this source file) returns the default
headers declared for the request merged into its argument. -/
def add_default_headers (conn : S3Connection) (headers : List (String × String)) :
    List (String × String) :=
  conn.default_headers.foldl (fun acc p => dictSet acc p.1 p.2) headers

/-- `S3Connection.add_default_params`.  In the source the three
assignments into `params` (Signature, AWSAccessKeyId, Expires) mutate
the dict of the caller in place and the same dict object is returned, so
this definition gives simultaneously the return value and the contents
of the map the caller retains a reference to after the call.  The value
of `int(time.time())` is the explicit `now` argument. -/
def add_default_params (conn : S3Connection) (now : Nat)
    (params : List (String × String)) : List (String × String) :=
  let expires := toString (now + EXPIRATION_SECONDS)
  let headers := add_default_headers conn []
  let params₁ := dictSet params "Signature"
    (_get_aws_auth_param conn.method headers params expires conn.key conn.action)
  let params₂ := dictSet params₁ "AWSAccessKeyId" conn.user_id
  dictSet params₂ "Expires" expires

/-
The Entity Mapper and the driver operations.
-/

/-- Element of a parsed XML tree (`xml.etree.ElementTree`): tag, text and
child elements.  `text` is the concatenated character data; an element
with no character data has `text = ""`. -/
inductive XElem where
  | mk (tag : String) (text : String) (children : List XElem)

/-- Tag of an element. -/
def XElem.tag : XElem → String
  | .mk t _ _ => t

/-- Text of an element. -/
def XElem.text : XElem → String
  | .mk _ s _ => s

/-- Children of an element. -/
def XElem.children : XElem → List XElem
  | .mk _ _ c => c

/-- Clark form of a namespaced tag, as used by ElementTree. -/
def nsTag (ns tag : String) : String := "\x7b" ++ ns ++ "\x7d" ++ tag

/-- Split a character list at a separator (Python `str.split(sep)`). -/
def splitOnChar (sep : Char) : List Char → List (List Char)
  | [] => [[]]
  | c :: cs =>
      let r := splitOnChar sep cs
      if c = sep then [] :: r
      else match r with
        | [] => [[c]]
        | h :: t => (c :: h) :: t

/-- Components of a `/`-separated xpath. -/
def pySplit (s : String) (sep : Char) : List String :=
  (splitOnChar sep s.data).map String.mk

/-- Modelled from the spec: `libcloud.utils.fixxpath(xpath, namespace)`
qualifies every component of a `/`-separated relative xpath with the one
fixed XML namespace URI. -/
def fixxpath (xpath ns : String) : List String :=
  (pySplit xpath '/').map (nsTag ns)

/-- Children of an element carrying a given tag, in document order. -/
def childrenWithTag (e : XElem) (t : String) : List XElem :=
  e.children.filter (fun c => c.tag == t)

/-- One path step of `findall`: all matching children of all elements. -/
def findallStep (es : List XElem) (t : String) : List XElem :=
  (es.map (fun e => childrenWithTag e t)).flatten

/-- ElementTree `findall` along a fixed relative path, in document
order. -/
def findall (e : XElem) (path : List String) : List XElem :=
  path.foldl findallStep [e]

/-- Modelled from the spec: `libcloud.utils.findtext(element, xpath,
namespace)` — the text of the first element matching the namespaced
xpath, or an absent value when no element matches. -/
def findtext (e : XElem) (xpath ns : String) : Option String :=
  ((findall e (fixxpath xpath ns)).head?).map XElem.text

/-- A regional driver configuration: `S3StorageDriver` and its four
regional subclasses differ only in these three class attributes. -/
structure S3Driver where
  name : String
  host : String
  ex_location_name : String
  deriving DecidableEq

/-- `S3StorageDriver` (US standard): `ex_location_name` is the empty
string inherited from the base class. -/
def S3StorageDriver : S3Driver :=
  { name := "Amazon S3 (standard)", host := S3_US_STANDARD_HOST, ex_location_name := "" }

/-- `S3USWestStorageDriver`. -/
def S3USWestStorageDriver : S3Driver :=
  { name := "Amazon S3 (us-west-1)", host := S3_US_WEST_HOST, ex_location_name := "us-west-1" }

/-- `S3EUWestStorageDriver`. -/
def S3EUWestStorageDriver : S3Driver :=
  { name := "Amazon S3 (eu-west-1)", host := S3_EU_WEST_HOST, ex_location_name := "EU" }

/-- `S3APSEStorageDriver`. -/
def S3APSEStorageDriver : S3Driver :=
  { name := "Amazon S3 (ap-southeast-1)", host := S3_AP_SOUTHEAST_HOST, ex_location_name := "ap-southeast-1" }

/-- `S3APNEStorageDriver`. -/
def S3APNEStorageDriver : S3Driver :=
  { name := "Amazon S3 (ap-northeast-1)", host := S3_AP_NORTHEAST_HOST, ex_location_name := "ap-northeast-1" }

/-- Modelled from the spec: `libcloud.storage.base.Container` — name,
extra metadata, and the non-owning back-reference to the producing
driver.  `name` and the extra values are `Option` because they are read
with `findtext`, which can report an absent field. -/
structure Container where
  name : Option String
  extra : Option (List (String × Option String))
  driver : S3Driver

/-- Modelled from the spec: the nested owner metadata of a storage
object. -/
structure OwnerMeta where
  id : Option String
  display_name : Option String

/-- Modelled from the spec: `libcloud.storage.base.Object` — key, size,
content hash, owner metadata, and the non-owning back-references to the
container and driver. -/
structure S3Object where
  name : Option String
  size : Option String
  hash : Option String
  extra : Option (List (String × Option String))
  meta_data_owner : OwnerMeta
  container : Container
  driver : S3Driver

/-- `S3StorageDriver._to_container`. -/
def _to_container (driver : S3Driver) (element : XElem) : Container :=
  { name := findtext element "Name" NAMESPACE,
    extra := some [("creation_date", findtext element "CreationDate" NAMESPACE)],
    driver := driver }

/-- `S3StorageDriver._to_containers`. -/
def _to_containers (driver : S3Driver) (obj : XElem) (xpath : String) : List Container :=
  (findall obj (fixxpath xpath NAMESPACE)).map (_to_container driver)

/-- `S3StorageDriver._to_obj`. -/
def _to_obj (driver : S3Driver) (element : XElem) (container : Container) : S3Object :=
  { name := findtext element "Key" NAMESPACE,
    size := findtext element "Size" NAMESPACE,
    hash := findtext element "ETag" NAMESPACE,
    extra := none,
    meta_data_owner :=
      { id := findtext element "Owner/ID" NAMESPACE,
        display_name := findtext element "Owner/DisplayName" NAMESPACE },
    container := container,
    driver := driver }

/-- `S3StorageDriver._to_objs`. -/
def _to_objs (driver : S3Driver) (obj : XElem) (xpath : String) (container : Container) :
    List S3Object :=
  (findall obj (fixxpath xpath NAMESPACE)).map (fun e => _to_obj driver e container)

/-- The XML body built by `create_container`: a
`CreateBucketConfiguration` element with one `LocationConstraint` child
whose text is the location constraint of the driver. -/
def create_container_body (driver : S3Driver) : XElem :=
  .mk "CreateBucketConfiguration" ""
    [.mk "LocationConstraint" driver.ex_location_name []]

/-- Modelled from the spec: `xml.etree.ElementTree.tostring` — an element
with no text and no children serializes self-closed, otherwise as an open
tag, the text, the serialized children and a close tag (the driver sets
no attributes). -/
def tostring : XElem → String
  | .mk tag "" [] => "<" ++ tag ++ " />"
  | .mk tag text children =>
      "<" ++ tag ++ ">" ++ text ++
      (children.attach.map (fun c => tostring c.1)).foldl (fun a s => a ++ s) "" ++
      "</" ++ tag ++ ">"
decreasing_by
  simp
  have := List.sizeOf_lt_of_mem c.2
  omega

/-- Serialization of an element with no text and no children. -/
theorem tostring_selfclosed (tag : String) :
    tostring (.mk tag "" []) = "<" ++ tag ++ " />" := by
  rw [tostring.eq_def]
  rfl

/-- Serialization of an element with text or children. -/
theorem tostring_node (tag text : String) (children : List XElem)
    (h : ¬(text = "" ∧ children = [])) :
    tostring (.mk tag text children) =
      "<" ++ tag ++ ">" ++ text ++
      (children.map tostring).foldl (fun a s => a ++ s) "" ++
      "</" ++ tag ++ ">" := by
  rw [tostring.eq_def]
  split
  · rename_i h₁
    injection h₁ with e₁ e₂ e₃
    exact absurd ⟨e₂, e₃⟩ h
  · rename_i h₁
    injection h₁ with e₁ e₂ e₃
    subst e₁
    subst e₂
    subst e₃
    rw [List.attach_map_val]

/-- `S3StorageDriver.delete_container`, from the response status on: 204
returns `True`; 409 raises `ContainerIsNotEmptyError` with the container
name; 404 raises `ContainerDoesNotExistError` with the container name;
anything else returns `False`. -/
def delete_container (container : Container) (status : Int) : Except S3Error Bool :=
  if status = httplib.NO_CONTENT then
    .ok true
  else if status = httplib.CONFLICT then
    .error (.containerIsNotEmpty
      ("Container must be empty" ++ " before it can be deleted.")
      container.name)
  else if status = httplib.NOT_FOUND then
    .error (.containerDoesNotExist none container.name)
  else
    .ok false

/-- `S3StorageDriver.create_container`, from the response status on: 200
returns a fresh `Container` named as requested with `extra=None` and the
driver back-reference; 409 raises the name-collision `LibcloudError`;
anything else raises the unexpected-status `LibcloudError`. -/
def create_container (driver : S3Driver) (container_name : String) (status : Int) :
    Except S3Error Container :=
  if status = httplib.OK then
    .ok { name := some container_name, extra := none, driver := driver }
  else if status = httplib.CONFLICT then
    .error (.libcloudError
      ("Container with this name already exists." ++
       "The name must be unique across all the " ++
       "containers in the system"))
  else
    .error (.libcloudError ("Unexpected status code: " ++ toString status))

/-- `S3StorageDriver.list_containers`, from the response status and
parsed body on. -/
def list_containers (driver : S3Driver) (status : Int) (obj : XElem) :
    Except S3Error (List Container) :=
  if status = httplib.OK then
    .ok (_to_containers driver obj "Buckets/Bucket")
  else
    .error (.libcloudError ("Unexpected status code: " ++ toString status))

/-- `S3StorageDriver.list_container_objects`, from the response status
and parsed body on. -/
def list_container_objects (driver : S3Driver) (container : Container)
    (status : Int) (obj : XElem) : Except S3Error (List S3Object) :=
  if status = httplib.OK then
    .ok (_to_objs driver obj "Contents" container)
  else
    .error (.libcloudError ("Unexpected status code: " ++ toString status))

/-
Characterization of the header extraction performed by the signer.
-/

/-- The value the header loop of `_get_aws_auth_param` leaves in the
special-header dict for key `k`: the lowercased, stripped value of the
last header whose lowercased key is `k` (later iterations overwrite
earlier ones).  Used only to state theorems; the lemmas below tie it to
`collectSpecial`. -/
def specialHeaderValue (headers : List (String × String)) (k : String) : Option String :=
  ((headers.filter (fun p => pyLower p.1 == k)).getLast?).map (fun p => pyStrip (pyLower p.2))

@[simp] theorem specialHeaderValue_nil (k : String) : specialHeaderValue [] k = none := rfl

theorem specialHeaderValue_cons (p : String × String) (t : List (String × String)) (k : String) :
    specialHeaderValue (p :: t) k =
      (specialHeaderValue t k).or
        (if pyLower p.1 = k then some (pyStrip (pyLower p.2)) else none) := by
  unfold specialHeaderValue
  by_cases h : pyLower p.1 = k
  · rw [List.filter_cons]
    simp only [h]
    cases hf : (t.filter (fun q => pyLower q.1 == k)) with
    | nil => simp
    | cons q l =>
      simp only [beq_self_eq_true, if_true, reduceIte]
      rw [show ((p :: q :: l).getLast? = (q :: l).getLast?) from rfl]
      cases hl : (q :: l).getLast? with
      | none => simp at hl
      | some r => simp
  · rw [List.filter_cons]
    simp [h]

theorem dictGet_foldl_specialStep (headers : List (String × String))
    (acc : List (String × String)) (k : String)
    (hk : k ∈ special_header_keys) :
    dictGet (headers.foldl specialStep acc) k =
      (specialHeaderValue headers k).or (dictGet acc k) := by
  induction headers generalizing acc with
  | nil => simp
  | cons p t ih =>
    rw [List.foldl_cons, ih, specialHeaderValue_cons]
    by_cases h : pyLower p.1 = k
    · have hc : special_header_keys.contains (pyLower p.1) = true := by
        rw [h]
        simpa using hk
      have hstep : specialStep acc p = dictSet acc k (pyStrip (pyLower p.2)) := by
        rw [specialStep, if_pos hc, h]
      rw [hstep, dictGet_dictSet_self]
      cases specialHeaderValue t k <;> simp [h]
    · have hstep : dictGet (specialStep acc p) k = dictGet acc k := by
        unfold specialStep
        split
        · exact dictGet_dictSet_ne _ _ _ _ h
        · rfl
      rw [hstep]
      cases specialHeaderValue t k <;> simp [h]

theorem dictGet_collectSpecial (headers : List (String × String)) (k : String)
    (hk : k ∈ special_header_keys) :
    dictGet (collectSpecial headers) k =
      (specialHeaderValue headers k).or (if "date" = k then some "" else none) := by
  rw [collectSpecial, dictGet_foldl_specialStep _ _ _ hk]
  rfl

/-- The key lists the special-header dict can take during the header
loop: `date` is present from the start, the other two appear in
first-seen order. -/
def specialKeyLists : List (List String) :=
  [["date"], ["date", "content-md5"], ["date", "content-type"],
   ["date", "content-md5", "content-type"], ["date", "content-type", "content-md5"]]

theorem map_fst_specialStep (acc : List (String × String)) (p : String × String)
    (h : acc.map Prod.fst ∈ specialKeyLists) :
    (specialStep acc p).map Prod.fst ∈ specialKeyLists := by
  unfold specialStep
  split
  · rename_i hc
    rw [map_fst_dictSet]
    have hk : pyLower p.1 = "content-md5" ∨ pyLower p.1 = "content-type" ∨
        pyLower p.1 = "date" := by
      simpa [special_header_keys] using hc
    simp only [specialKeyLists, List.mem_cons, List.not_mem_nil, or_false] at h
    rcases h with h | h | h | h | h <;> rw [h] <;>
      rcases hk with hk | hk | hk <;> rw [hk] <;> decide
  · exact h

theorem map_fst_collectSpecial (headers : List (String × String)) :
    (collectSpecial headers).map Prod.fst ∈ specialKeyLists := by
  rw [collectSpecial]
  have h : ∀ acc : List (String × String), acc.map Prod.fst ∈ specialKeyLists →
      (headers.foldl specialStep acc).map Prod.fst ∈ specialKeyLists := by
    induction headers with
    | nil => exact fun acc hacc => hacc
    | cons p t ih =>
      intro acc hacc
      exact ih _ (map_fst_specialStep acc p hacc)
  apply h
  decide

/-- The two key lists possible after the default checks. -/
def fullKeyLists : List (List String) :=
  [["date", "content-md5", "content-type"], ["date", "content-type", "content-md5"]]

theorem map_fst_applyDefault (svs : List (String × String)) (k : String) :
    (applyDefault svs k).map Prod.fst =
      if (svs.map Prod.fst).contains k then svs.map Prod.fst
      else svs.map Prod.fst ++ [k] := by
  unfold applyDefault hasKey
  split
  · rfl
  · rename_i hc
    rw [map_fst_dictSet, if_neg (by simpa using hc)]

theorem map_fst_withDefaults (svs : List (String × String))
    (h : svs.map Prod.fst ∈ specialKeyLists) :
    (withDefaults svs).map Prod.fst ∈ fullKeyLists := by
  simp only [specialKeyLists, List.mem_cons, List.not_mem_nil, or_false] at h
  rcases h with h | h | h | h | h <;>
    rw [withDefaults, map_fst_applyDefault, map_fst_applyDefault, h] <;> decide

theorem dictGet_applyDefault_self (svs : List (String × String)) (k : String) :
    dictGet (applyDefault svs k) k = some ((dictGet svs k).getD "") := by
  unfold applyDefault
  by_cases h : hasKey svs k = true
  · obtain ⟨v, hv⟩ := (hasKey_iff_dictGet svs k).mp h
    rw [if_pos h, hv]
    rfl
  · have hnone : dictGet svs k = none := by
      cases hv : dictGet svs k with
      | none => rfl
      | some v => exact absurd ((hasKey_iff_dictGet svs k).mpr ⟨v, hv⟩) h
    rw [if_neg h, dictGet_dictSet_self, hnone]
    rfl

theorem dictGet_applyDefault_ne (svs : List (String × String)) (k k₂ : String)
    (h : k ≠ k₂) :
    dictGet (applyDefault svs k) k₂ = dictGet svs k₂ := by
  unfold applyDefault
  split
  · rfl
  · exact dictGet_dictSet_ne _ _ _ _ h

theorem dictGet_withDefaults_md5 (svs : List (String × String)) :
    dictGet (withDefaults svs) "content-md5" =
      some ((dictGet svs "content-md5").getD "") := by
  rw [withDefaults, dictGet_applyDefault_ne _ _ _ (by decide), dictGet_applyDefault_self]

theorem dictGet_withDefaults_ct (svs : List (String × String)) :
    dictGet (withDefaults svs) "content-type" =
      some ((dictGet svs "content-type").getD "") := by
  rw [withDefaults, dictGet_applyDefault_self]
  rw [dictGet_applyDefault_ne _ _ _ (by decide)]

theorem dictGet_withDefaults_date (svs : List (String × String)) :
    dictGet (withDefaults svs) "date" = dictGet svs "date" := by
  rw [withDefaults, dictGet_applyDefault_ne _ _ _ (by decide),
      dictGet_applyDefault_ne _ _ _ (by decide)]

theorem dictGet_applyExpires_date (svs : List (String × String)) (expires : String) :
    dictGet (applyExpires svs expires) "date" =
      if expires = "" then dictGet svs "date" else some expires := by
  unfold applyExpires
  by_cases h : expires = "" <;> simp [h, dictGet_dictSet_self]

theorem dictGet_applyExpires_ne (svs : List (String × String)) (expires k : String)
    (h : k ≠ "date") :
    dictGet (applyExpires svs expires) k = dictGet svs k := by
  unfold applyExpires
  split
  · exact dictGet_dictSet_ne _ _ _ _ (fun e => h e.symm)
  · rfl

theorem map_fst_applyExpires (svs : List (String × String)) (expires : String)
    (h : (svs.map Prod.fst).contains "date" = true) :
    (applyExpires svs expires).map Prod.fst = svs.map Prod.fst := by
  unfold applyExpires
  split
  · rw [map_fst_dictSet, if_pos h]
  · rfl

/-- Characterization of the string-to-sign: HTTP method, then the
normalized `content-md5`, `content-type` and date slots in that fixed
alphabetical order, newline-separated, then a final newline and the
resource path. -/
theorem string_to_sign_eq (method : String) (headers : List (String × String))
    (expires path : String) :
    string_to_sign method headers expires path =
      method ++ "\n" ++ ((specialHeaderValue headers "content-md5").getD "") ++ "\n" ++
      ((specialHeaderValue headers "content-type").getD "") ++ "\n" ++
      (if expires = "" then (specialHeaderValue headers "date").getD "" else expires) ++
      "\n" ++ path := by
  have h₁ := map_fst_withDefaults _ (map_fst_collectSpecial headers)
  simp only [fullKeyLists, List.mem_cons, List.not_mem_nil, or_false] at h₁
  have hmd5 : dictGet (applyExpires (withDefaults (collectSpecial headers)) expires)
      "content-md5" = some ((specialHeaderValue headers "content-md5").getD "") := by
    rw [dictGet_applyExpires_ne _ _ _ (by decide), dictGet_withDefaults_md5,
        dictGet_collectSpecial _ _ (by decide)]
    cases specialHeaderValue headers "content-md5" <;> rfl
  have hct : dictGet (applyExpires (withDefaults (collectSpecial headers)) expires)
      "content-type" = some ((specialHeaderValue headers "content-type").getD "") := by
    rw [dictGet_applyExpires_ne _ _ _ (by decide), dictGet_withDefaults_ct,
        dictGet_collectSpecial _ _ (by decide)]
    cases specialHeaderValue headers "content-type" <;> rfl
  have hdate : dictGet (applyExpires (withDefaults (collectSpecial headers)) expires)
      "date" = some (if expires = "" then
        (specialHeaderValue headers "date").getD "" else expires) := by
    rw [dictGet_applyExpires_date]
    by_cases he : expires = ""
    · rw [if_pos he, if_pos he, dictGet_withDefaults_date,
          dictGet_collectSpecial _ _ (by decide)]
      cases specialHeaderValue headers "date" <;> rfl
    · rw [if_neg he, if_neg he]
  have hkeys : (applyExpires (withDefaults (collectSpecial headers)) expires).map Prod.fst
      = (withDefaults (collectSpecial headers)).map Prod.fst := by
    apply map_fst_applyExpires
    rcases h₁ with h | h <;> rw [h] <;> decide
  have hsort : sortStrings ((applyExpires (withDefaults (collectSpecial headers))
      expires).map Prod.fst) = ["content-md5", "content-type", "date"] := by
    rw [hkeys]
    rcases h₁ with h | h <;> rw [h] <;> decide
  simp only [string_to_sign]
  rw [hsort]
  simp only [List.map_cons, List.map_nil, List.cons_append, List.nil_append]
  rw [hmd5, hct, hdate]
  simp only [Option.getD_some, joinNl, String.append_assoc]

/-
Normalization facts about the extracted header values.
-/

theorem charOfNat_toNat (n : Nat) (h1 : 97 ≤ n) (h2 : n ≤ 122) :
    (Char.ofNat n).toNat = n := by
  have hv : n.isValidChar := Or.inl (by omega)
  simp [Char.ofNat, hv, Char.ofNatAux, Char.toNat]
  rfl

theorem pyLowerChar_no_upper (c : Char) :
    ¬('A' ≤ pyLowerChar c ∧ pyLowerChar c ≤ 'Z') := by
  unfold pyLowerChar
  split
  · rename_i h
    obtain ⟨h1, h2⟩ := h
    have hA : (65 : Nat) ≤ c.toNat := h1
    have hZ : c.toNat ≤ 90 := h2
    have ht : (Char.ofNat (c.toNat + 32)).toNat = c.toNat + 32 :=
      charOfNat_toNat _ (by omega) (by omega)
    rintro ⟨g1, g2⟩
    have g2n : (Char.ofNat (c.toNat + 32)).toNat ≤ 90 := g2
    omega
  · rename_i h
    exact h

theorem mem_pyLower (s : String) (c : Char) (h : c ∈ (pyLower s).data) :
    ∃ c₀, c = pyLowerChar c₀ := by
  unfold pyLower at h
  simp only [List.mem_map] at h
  obtain ⟨c₀, _, hc⟩ := h
  exact ⟨c₀, hc.symm⟩

theorem mem_pyStrip (s : String) (c : Char) (h : c ∈ (pyStrip s).data) : c ∈ s.data := by
  unfold pyStrip at h
  rw [List.mem_reverse] at h
  replace h := (List.dropWhile_sublist _).mem h
  rw [List.mem_reverse] at h
  exact (List.dropWhile_sublist _).mem h

theorem norm_no_upper (v : String) (c : Char) (h : c ∈ (pyStrip (pyLower v)).data) :
    ¬('A' ≤ c ∧ c ≤ 'Z') := by
  obtain ⟨c₀, rfl⟩ := mem_pyLower _ _ (mem_pyStrip _ _ h)
  exact pyLowerChar_no_upper c₀

theorem specialHeaderValue_shape (headers : List (String × String)) (k s : String)
    (h : specialHeaderValue headers k = some s) :
    ∃ v, s = pyStrip (pyLower v) := by
  unfold specialHeaderValue at h
  cases hg : (headers.filter (fun p => pyLower p.1 == k)).getLast? with
  | none =>
    rw [hg] at h
    simp at h
  | some p =>
    rw [hg] at h
    simp at h
    exact ⟨p.2, h.symm⟩

/-
Congruence facts: the signature depends on the headers only through the
three extracted slots.
-/

theorem specialHeaderValue_append_single (headers : List (String × String))
    (p : String × String) (k : String) :
    specialHeaderValue (headers ++ [p]) k =
      if pyLower p.1 = k then some (pyStrip (pyLower p.2))
      else specialHeaderValue headers k := by
  unfold specialHeaderValue
  rw [List.filter_append]
  by_cases hp : pyLower p.1 = k
  · simp [hp, List.getLast?_concat]
  · simp [hp]

theorem string_to_sign_congr (method expires path : String)
    (h₁ h₂ : List (String × String))
    (hagree : ∀ k ∈ special_header_keys, specialHeaderValue h₁ k = specialHeaderValue h₂ k) :
    string_to_sign method h₁ expires path = string_to_sign method h₂ expires path := by
  rw [string_to_sign_eq, string_to_sign_eq,
      hagree "content-md5" (by decide), hagree "content-type" (by decide),
      hagree "date" (by decide)]

theorem sign_congr (method expires secret_key path : String)
    (params₁ params₂ h₁ h₂ : List (String × String))
    (hagree : ∀ k ∈ special_header_keys, specialHeaderValue h₁ k = specialHeaderValue h₂ k) :
    _get_aws_auth_param method h₁ params₁ expires secret_key path =
      _get_aws_auth_param method h₂ params₂ expires secret_key path := by
  unfold _get_aws_auth_param
  rw [string_to_sign_congr method expires path h₁ h₂ hagree]

theorem contains_append_str (l₁ l₂ : List String) (x : String) :
    (l₁ ++ l₂).contains x = (l₁.contains x || l₂.contains x) := by
  induction l₁ with
  | nil => simp
  | cons a t ih => simp [List.contains_cons, ih, Bool.or_assoc]

theorem contains_map_fst_dictSet (m : List (String × String)) (k v k₂ : String) :
    ((dictSet m k v).map Prod.fst).contains k₂ =
      ((m.map Prod.fst).contains k₂ || k₂ == k) := by
  rw [map_fst_dictSet]
  by_cases h : k₂ = k
  · subst h
    split
    · rename_i hc
      rw [hc]
      simp
    · rw [contains_append_str]
      simp [List.contains_cons]
  · have hbeq : (k₂ == k) = false := by simp [h]
    rw [hbeq, Bool.or_false]
    split
    · rfl
    · rw [contains_append_str]
      simp [List.contains_cons, h]

/-
The claims.
-/

/-- A concrete container used by witnesses. -/
def testContainer : Container :=
  { name := some "test-bucket", extra := none, driver := S3StorageDriver }

/-- A concrete connection used by witnesses. -/
def testConnection : S3Connection :=
  { host := S3_US_STANDARD_HOST, user_id := "AKID", key := "topsecret",
    method := "GET", action := "/", default_headers := [] }

/-- C1: for every container, `delete_container` maps status 204 to `True`;
409 to `ContainerIsNotEmptyError` carrying exactly the container name
passed in; 404 to `ContainerDoesNotExistError` carrying that container
name; and any other status to `False` without raising. -/
theorem claim_C1_delete_container (container : Container) :
    delete_container container 204 = .ok true
    ∧ delete_container container 409 =
        .error (.containerIsNotEmpty
          "Container must be empty before it can be deleted." container.name)
    ∧ delete_container container 404 =
        .error (.containerDoesNotExist none container.name)
    ∧ ∀ s : Int, s ≠ 204 → s ≠ 409 → s ≠ 404 →
        delete_container container s = .ok false := by
  refine ⟨rfl, rfl, rfl, ?_⟩
  intro s h₁ h₂ h₃
  simp [delete_container, httplib.NO_CONTENT, httplib.CONFLICT, httplib.NOT_FOUND,
        h₁, h₂, h₃]

/-- Witness for C1 at a concrete container and a concrete other status. -/
theorem claim_C1_delete_container_witness :
    delete_container testContainer 204 = .ok true
    ∧ delete_container testContainer 500 = .ok false :=
  ⟨(claim_C1_delete_container testContainer).1,
   (claim_C1_delete_container testContainer).2.2.2 500 (by decide) (by decide) (by decide)⟩

/-- C2 counterexample: `add_default_params` does mutate the parameter
map of the caller: called on the empty map, the map the caller retains
(which is also the returned map — the source assigns into `params` in
place) is no longer empty afterwards. -/
theorem claim_C2_counterexample :
    add_default_params testConnection 0 [] ≠ [] := by
  intro h
  have hs : dictGet (add_default_params testConnection 0 []) "Expires" =
      some (toString (0 + EXPIRATION_SECONDS)) := by
    simp only [add_default_params]
    exact dictGet_dictSet_self _ _ _
  rw [h] at hs
  exact Option.noConfusion hs

/-- C2 (amended): `add_default_params` mutates the parameter map of the
caller in place — after the call the retained map equals the original
updated with the three authentication parameters (and is the returned
map), so a caller-retained reference observes the change; only the
header map is copied before signing. -/
theorem claim_C2_add_default_params_mutates (conn : S3Connection) (now : Nat)
    (params : List (String × String)) (h : dictGet params "Signature" = none) :
    add_default_params conn now params =
      dictSet (dictSet (dictSet params "Signature"
        (_get_aws_auth_param conn.method (add_default_headers conn []) params
          (toString (now + EXPIRATION_SECONDS)) conn.key conn.action))
        "AWSAccessKeyId" conn.user_id)
        "Expires" (toString (now + EXPIRATION_SECONDS))
    ∧ add_default_params conn now params ≠ params := by
  refine ⟨rfl, ?_⟩
  intro he
  have hs : dictGet (add_default_params conn now params) "Signature" =
      some (_get_aws_auth_param conn.method (add_default_headers conn []) params
        (toString (now + EXPIRATION_SECONDS)) conn.key conn.action) := by
    simp only [add_default_params]
    rw [dictGet_dictSet_ne _ _ _ _ (by decide), dictGet_dictSet_ne _ _ _ _ (by decide),
        dictGet_dictSet_self]
  rw [he, h] at hs
  exact Option.noConfusion hs

/-- Witness for the amended C2 at a concrete connection and map. -/
theorem claim_C2_witness :
    dictGet ([] : List (String × String)) "Signature" = none
    ∧ add_default_params testConnection 3 [] ≠ [] :=
  ⟨rfl, (claim_C2_add_default_params_mutates testConnection 3 [] rfl).2⟩

/-- C3: the string-to-sign is the HTTP method, the `content-md5`,
`content-type` and date slots in fixed alphabetical key order, all
newline-separated, then a trailing newline and the resource path (also
when the path is the account root `/`); missing content-MD5 or
content-type contribute the empty string; a supplied expiry fills the
date slot; and the signature is the base64 of the HMAC-SHA1 of that
string under the secret key. -/
theorem claim_C3_canonical_signer (method : String)
    (headers params : List (String × String)) (expires secret_key path : String)
    (hexp : expires ≠ "") :
    string_to_sign method headers expires path =
      method ++ "\n" ++ ((specialHeaderValue headers "content-md5").getD "") ++ "\n" ++
      ((specialHeaderValue headers "content-type").getD "") ++ "\n" ++
      expires ++ "\n" ++ path
    ∧ (path = "/" →
        string_to_sign method headers expires path =
          (method ++ "\n" ++ ((specialHeaderValue headers "content-md5").getD "") ++ "\n" ++
           ((specialHeaderValue headers "content-type").getD "") ++ "\n" ++
           expires) ++ "\n" ++ "/")
    ∧ _get_aws_auth_param method headers params expires secret_key path =
        base64Encode (hmacSha1 (strToBytes secret_key)
          (strToBytes (string_to_sign method headers expires path))) := by
  refine ⟨?_, ?_, rfl⟩
  · rw [string_to_sign_eq, if_neg hexp]
  · intro hp
    rw [string_to_sign_eq, if_neg hexp, hp]

/-- Witness for C3: a concrete request whose string-to-sign is computed
outright. -/
theorem claim_C3_witness :
    ("1234567890" : String) ≠ ""
    ∧ string_to_sign "GET" [] "1234567890" "/" = "GET\n\n\n1234567890\n/" := by
  refine ⟨by decide, ?_⟩
  rw [(claim_C3_canonical_signer "GET" [] [] "1234567890" "topsecret" "/" (by decide)).1]
  rfl

/-- C4: the success predicate holds exactly on statuses 200–299 and the
whitelist 404, 409. -/
theorem claim_C4_success (status : Int) :
    S3Response.success status = true ↔
      (200 ≤ status ∧ status ≤ 299) ∨ status = 404 ∨ status = 409 := by
  simp only [S3Response.success, valid_response_codes, httplib.NOT_FOUND, httplib.CONFLICT,
        List.contains_cons, List.contains_nil, Bool.or_eq_true, Bool.and_eq_true,
        decide_eq_true_eq, beq_iff_eq, Bool.or_false]

/-- C5: on a non-success status, `parse_error` raises `InvalidCredsError`
with the body exactly on 403, the wrong-region `LibcloudError` exactly on
301, and otherwise the catch-all `LibcloudError` whose message carries
the raw numeric status code. -/
theorem claim_C5_parse_error (status : Int) (body : String)
    (h : S3Response.success status = false) :
    (status = 403 → S3Response.parse_error status body = .invalidCreds body)
    ∧ (status = 301 → S3Response.parse_error status body =
        .libcloudError
          "This bucket is located in a different region. Please use the correct driver.")
    ∧ (status ≠ 403 → status ≠ 301 →
        S3Response.parse_error status body =
          .libcloudError ("Unknown error. Status code: " ++ toString status)) := by
  refine ⟨?_, ?_, ?_⟩
  · intro h₁
    simp [S3Response.parse_error, h₁]
  · intro h₁
    simp [S3Response.parse_error, h₁]
  · intro h₁ h₂
    simp [S3Response.parse_error, h₁, h₂]

/-- Witness for C5 at status 500. -/
theorem claim_C5_witness :
    S3Response.success 500 = false
    ∧ S3Response.parse_error 500 "err" =
        .libcloudError ("Unknown error. Status code: " ++ toString (500 : Int)) :=
  ⟨by decide, (claim_C5_parse_error 500 "err" (by decide)).2.2 (by decide) (by decide)⟩

/-- C6: `create_container` sends a body that is a
`CreateBucketConfiguration` element with a single `LocationConstraint`
child whose text is the location-constraint label of the driver
(serialized as
`<LocationConstraint>EU</LocationConstraint>` on the EU-West driver, the
empty string on the US-standard driver); on 200 it returns a `Container`
with the given name, and on 409 it raises the name-collision error. -/
theorem claim_C6_create_container (d : S3Driver) (container_name : String) :
    create_container_body d =
      .mk "CreateBucketConfiguration" "" [.mk "LocationConstraint" d.ex_location_name []]
    ∧ create_container d container_name 200 =
        .ok { name := some container_name, extra := none, driver := d }
    ∧ create_container d container_name 409 = .error (.libcloudError
        ("Container with this name already exists." ++
         "The name must be unique across all the " ++ "containers in the system"))
    ∧ S3EUWestStorageDriver.ex_location_name = "EU"
    ∧ S3StorageDriver.ex_location_name = ""
    ∧ (create_container_body S3StorageDriver).children.map XElem.text = [""]
    ∧ tostring (create_container_body S3EUWestStorageDriver) =
        "<CreateBucketConfiguration><LocationConstraint>EU</LocationConstraint></CreateBucketConfiguration>" := by
  refine ⟨rfl, rfl, rfl, rfl, rfl, rfl, ?_⟩
  show tostring (.mk "CreateBucketConfiguration" ""
      [.mk "LocationConstraint" "EU" []]) = _
  rw [tostring_node _ _ _ (by simp)]
  simp only [List.map_cons, List.map_nil]
  rw [tostring_node _ _ _ (fun hc => absurd hc.1 (by decide))]
  rfl

/-- C7: the signature depends on the header map only through the
case-insensitive `content-md5`, `content-type` and `date` entries; two
header maps agreeing there sign identically, and appending a header
outside that set never changes the signature. -/
theorem claim_C7_sign_header_independence (method expires secret_key path : String)
    (params₁ params₂ h₁ h₂ : List (String × String))
    (hagree : ∀ k ∈ special_header_keys,
      specialHeaderValue h₁ k = specialHeaderValue h₂ k) :
    _get_aws_auth_param method h₁ params₁ expires secret_key path =
      _get_aws_auth_param method h₂ params₂ expires secret_key path
    ∧ ∀ p : String × String, pyLower p.1 ∉ special_header_keys →
        _get_aws_auth_param method (h₁ ++ [p]) params₁ expires secret_key path =
          _get_aws_auth_param method h₁ params₁ expires secret_key path := by
  constructor
  · exact sign_congr method expires secret_key path params₁ params₂ h₁ h₂ hagree
  · intro p hp
    apply sign_congr
    intro k hk
    rw [specialHeaderValue_append_single, if_neg (fun e => hp (by rw [e]; exact hk))]

/-- Witness for C7: a case-renamed `Content-Type` plus an unrelated
header signs the same as the plain one. -/
theorem claim_C7_witness :
    (∀ k ∈ special_header_keys,
      specialHeaderValue [("Content-Type", "text/xml"), ("X-Amz-Meta", "bar")] k =
        specialHeaderValue [("content-type", "text/xml")] k)
    ∧ _get_aws_auth_param "GET" [("Content-Type", "text/xml"), ("X-Amz-Meta", "bar")]
        [] "99" "sk" "/" =
      _get_aws_auth_param "GET" [("content-type", "text/xml")] [] "99" "sk" "/" := by
  refine ⟨by decide, ?_⟩
  exact (claim_C7_sign_header_independence "GET" "99" "sk" "/" [] []
    [("Content-Type", "text/xml"), ("X-Amz-Meta", "bar")]
    [("content-type", "text/xml")] (by decide)).1

/-- C8: the request builder fills `Expires` with the clock value of the
invocation plus 900 seconds as a decimal string, `AWSAccessKeyId` with
the access key of the connection, `Signature` with the canonical
signature, and leaves every other parameter of the caller unchanged; the
key set of the produced map is the key set of the caller plus exactly
those three. -/
theorem claim_C8_authenticated_request_builder (conn : S3Connection) (now : Nat)
    (params : List (String × String)) :
    dictGet (add_default_params conn now params) "Expires" =
      some (toString (now + 900))
    ∧ dictGet (add_default_params conn now params) "AWSAccessKeyId" = some conn.user_id
    ∧ dictGet (add_default_params conn now params) "Signature" =
        some (_get_aws_auth_param conn.method (add_default_headers conn []) params
          (toString (now + 900)) conn.key conn.action)
    ∧ (∀ k, k ≠ "Signature" → k ≠ "AWSAccessKeyId" → k ≠ "Expires" →
        dictGet (add_default_params conn now params) k = dictGet params k)
    ∧ (∀ k, ((add_default_params conn now params).map Prod.fst).contains k =
        ((((params.map Prod.fst).contains k || k == "Signature")
          || k == "AWSAccessKeyId") || k == "Expires")) := by
  refine ⟨?_, ?_, ?_, ?_, ?_⟩
  · simp only [add_default_params]
    exact dictGet_dictSet_self _ _ _
  · simp only [add_default_params]
    rw [dictGet_dictSet_ne _ _ _ _ (by decide)]
    exact dictGet_dictSet_self _ _ _
  · simp only [add_default_params]
    rw [dictGet_dictSet_ne _ _ _ _ (by decide), dictGet_dictSet_ne _ _ _ _ (by decide)]
    exact dictGet_dictSet_self _ _ _
  · intro k h₁ h₂ h₃
    simp only [add_default_params]
    rw [dictGet_dictSet_ne _ _ _ _ (fun e => h₃ e.symm),
        dictGet_dictSet_ne _ _ _ _ (fun e => h₂ e.symm),
        dictGet_dictSet_ne _ _ _ _ (fun e => h₁ e.symm)]
  · intro k
    simp only [add_default_params]
    rw [contains_map_fst_dictSet, contains_map_fst_dictSet, contains_map_fst_dictSet]

/-- Witness for C8: a caller parameter survives unchanged. -/
theorem claim_C8_witness :
    ("acl" : String) ≠ "Signature" ∧ ("acl" : String) ≠ "AWSAccessKeyId"
    ∧ ("acl" : String) ≠ "Expires"
    ∧ dictGet (add_default_params testConnection 7 [("acl", "public")]) "acl" =
        some "public" := by
  refine ⟨by decide, by decide, by decide, ?_⟩
  rw [(claim_C8_authenticated_request_builder testConnection 7 [("acl", "public")]).2.2.2.1
    "acl" (by decide) (by decide) (by decide)]
  rfl

/-- C9: a list-containers document whose bucket path yields exactly two
bucket elements maps to exactly two containers, in document order, with
names and creation dates taken verbatim from the text nodes; every
produced container carries the driver back-reference, and every mapped
object carries the supplied container and driver back-references. -/
theorem claim_C9_entity_mapper (driver : S3Driver) (doc e₁ e₂ : XElem)
    (n₁ d₁ n₂ d₂ : String)
    (hfind : findall doc (fixxpath "Buckets/Bucket" NAMESPACE) = [e₁, e₂])
    (hn₁ : findtext e₁ "Name" NAMESPACE = some n₁)
    (hd₁ : findtext e₁ "CreationDate" NAMESPACE = some d₁)
    (hn₂ : findtext e₂ "Name" NAMESPACE = some n₂)
    (hd₂ : findtext e₂ "CreationDate" NAMESPACE = some d₂) :
    _to_containers driver doc "Buckets/Bucket" =
      [{ name := some n₁, extra := some [("creation_date", some d₁)], driver := driver },
       { name := some n₂, extra := some [("creation_date", some d₂)], driver := driver }]
    ∧ (∀ e, (_to_container driver e).driver = driver)
    ∧ (∀ e c, (_to_obj driver e c).container = c ∧ (_to_obj driver e c).driver = driver) := by
  refine ⟨?_, fun e => rfl, fun e c => ⟨rfl, rfl⟩⟩
  rw [_to_containers, hfind]
  simp only [List.map_cons, List.map_nil, _to_container, hn₁, hd₁, hn₂, hd₂]

/-- First sample bucket element for the C9 witness. -/
def sampleBucket1 : XElem :=
  .mk (nsTag NAMESPACE "Bucket") ""
    [.mk (nsTag NAMESPACE "Name") "backups" [],
     .mk (nsTag NAMESPACE "CreationDate") "2011-03-01T00:00:00.000Z" []]

/-- Second sample bucket element for the C9 witness. -/
def sampleBucket2 : XElem :=
  .mk (nsTag NAMESPACE "Bucket") ""
    [.mk (nsTag NAMESPACE "Name") "media" [],
     .mk (nsTag NAMESPACE "CreationDate") "2011-04-01T00:00:00.000Z" []]

/-- A synthetic two-bucket list-containers document for the C9 witness. -/
def sampleListDoc : XElem :=
  .mk (nsTag NAMESPACE "ListAllMyBucketsResult") ""
    [.mk (nsTag NAMESPACE "Owner") "" [],
     .mk (nsTag NAMESPACE "Buckets") "" [sampleBucket1, sampleBucket2]]

/-- Witness for C9 on the synthetic document. -/
theorem claim_C9_witness :
    findall sampleListDoc (fixxpath "Buckets/Bucket" NAMESPACE) =
      [sampleBucket1, sampleBucket2]
    ∧ findtext sampleBucket1 "Name" NAMESPACE = some "backups"
    ∧ findtext sampleBucket1 "CreationDate" NAMESPACE = some "2011-03-01T00:00:00.000Z"
    ∧ findtext sampleBucket2 "Name" NAMESPACE = some "media"
    ∧ findtext sampleBucket2 "CreationDate" NAMESPACE = some "2011-04-01T00:00:00.000Z"
    ∧ _to_containers S3StorageDriver sampleListDoc "Buckets/Bucket" =
        [{ name := some "backups",
           extra := some [("creation_date", some "2011-03-01T00:00:00.000Z")],
           driver := S3StorageDriver },
         { name := some "media",
           extra := some [("creation_date", some "2011-04-01T00:00:00.000Z")],
           driver := S3StorageDriver }] := by
  refine ⟨rfl, rfl, rfl, rfl, rfl, ?_⟩
  exact (claim_C9_entity_mapper S3StorageDriver sampleListDoc sampleBucket1 sampleBucket2
    "backups" "2011-03-01T00:00:00.000Z" "media" "2011-04-01T00:00:00.000Z"
    rfl rfl rfl rfl rfl).1

/-- C10: the signer normalizes each extracted special header value by
lowercasing and stripping surrounding whitespace: two values equal after
that normalization sign identically, and an extracted slot value never
contains an uppercase ASCII character. -/
theorem claim_C10_normalized_values (method expires secret_key path : String)
    (params headers : List (String × String)) (k v₁ v₂ : String)
    (hnorm : pyStrip (pyLower v₁) = pyStrip (pyLower v₂)) :
    _get_aws_auth_param method (headers ++ [(k, v₁)]) params expires secret_key path =
      _get_aws_auth_param method (headers ++ [(k, v₂)]) params expires secret_key path
    ∧ (∀ kk ∈ special_header_keys, ∀ s, specialHeaderValue headers kk = some s →
        ∀ c ∈ s.data, ¬('A' ≤ c ∧ c ≤ 'Z')) := by
  constructor
  · apply sign_congr
    intro kk hkk
    rw [specialHeaderValue_append_single, specialHeaderValue_append_single]
    by_cases hp : pyLower k = kk
    · rw [if_pos hp, if_pos hp, hnorm]
    · rw [if_neg hp, if_neg hp]
  · intro kk hkk s hs c hc
    obtain ⟨v, rfl⟩ := specialHeaderValue_shape headers kk s hs
    exact norm_no_upper v c hc

/-- Witness for C10: `Text/XML ` (mixed case, trailing blank) signs the
same as `text/xml`. -/
theorem claim_C10_witness :
    pyStrip (pyLower "Text/XML ") = pyStrip (pyLower "text/xml")
    ∧ _get_aws_auth_param "PUT" ([("X-H", "y")] ++ [("Content-Type", "Text/XML ")])
        [] "42" "sk" "/x" =
      _get_aws_auth_param "PUT" ([("X-H", "y")] ++ [("Content-Type", "text/xml")])
        [] "42" "sk" "/x" := by
  refine ⟨by decide, ?_⟩
  exact (claim_C10_normalized_values "PUT" "42" "sk" "/x" [] [("X-H", "y")]
    "Content-Type" "Text/XML " "text/xml" (by decide)).1
